import Mathlib

/-!
Verification of the dialog turn-lifecycle contract of the botbuilder-js
snapshot: the data shapes of
src/libraries/botbuilder-dialogs/src/dialog.ts (DialogInstance,
DialogEndReason, DialogTurnResult, the abstract Dialog class and its
EndOfTurn sentinel), the ConfirmPrompt wrapper, the Exists expression
evaluator and the ConversationUpdateBot handlers, embedded shallowly in
Lean.  An optional TypeScript field or parameter is an Option, with none
standing for an absent or undefined value; an optional method of the
abstract Dialog class is an Option-valued field, so that absence of the
method is itself a checkable state.
-/

namespace BotbuilderDialogs

/-- Tracking information for a dialog on the stack
(dialog.ts, DialogInstance): the id of the dialog the instance is for and
its persisted state. -/
structure DialogInstance (T : Type) where
  id : String
  state : T

/-- Why a dialog instance ended (dialog.ts, DialogEndReason): either it
completed normally through DialogContext.end, or it was cancelled as part
of DialogContext.cancelAll. -/
inductive DialogEndReason where
  | completed
  | cancelled
deriving DecidableEq, Repr

/-- The numeric value of each DialogEndReason member: a TypeScript enum
without initializers numbers its members from 0 in order of declaration. -/
def DialogEndReason.toNat : DialogEndReason → Nat
  | .completed => 0
  | .cancelled => 1

/-- Result of a turn-processing call (dialog.ts, DialogTurnResult):
whether a dialog is still active, whether a dialog just completed, and the
optional final result, which can be none even when hasResult is true. -/
structure DialogTurnResult (T : Type) where
  hasActive : Bool
  hasResult : Bool
  result : Option T := none
deriving DecidableEq, Repr

/-- Modelled from the spec: the observable effect of one dialog method
body on the stack manager.  The DialogContext collaborator is not part of
this snapshot; per the spec a method body either calls the end operation
of the dialog context, forwarding an optional result up the stack, or
waits for the next user turn, surfacing the EndOfTurn sentinel. -/
inductive DialogAction (R : Type) where
  | endDialog (result : Option R)
  | waitTurn

/-- A concrete dialog (dialog.ts, abstract class Dialog): an id fixed at
construction, the mandatory dialogBegin body, the optional dialogContinue
and dialogResume bodies (none models a subclass that does not implement
the method), and whether the optional dialogEnd cleanup hook is
implemented. -/
structure Dialog (R : Type) where
  id : String
  dialogBegin : DialogAction R
  dialogContinue : Option (DialogAction R)
  dialogResume : Option (Option R → DialogAction R)
  hasDialogEnd : Bool

/-- The static EndOfTurn sentinel (dialog.ts line 56): the object literal
with hasActive true and hasResult false, whose result field is never
set. -/
def Dialog.EndOfTurn {T : Type} : DialogTurnResult T :=
  { hasActive := true, hasResult := false }

/-- Modelled from the spec: the end operation of the dialog stack manager
(DialogContext.end, not part of this snapshot).  It pops the active dialog
and resumes the parent with the forwarded result: a parent implementing
dialogResume has its body run, and a parent lacking dialogResume is itself
auto-ended with the result forwarded one level further up, transparently
(spec section 4.1).  When the stack empties the final result is surfaced
with hasActive false and hasResult true.  Returns the remaining stack and
the DialogTurnResult surfaced to the caller of the turn. -/
def endDialogOn {R : Type} : List (Dialog R) → Option R → List (Dialog R) × DialogTurnResult R
  | [], result => ([], { hasActive := false, hasResult := true, result := result })
  | [_], result => ([], { hasActive := false, hasResult := true, result := result })
  | _ :: parent :: rest, result =>
    match parent.dialogResume with
    | none => endDialogOn (parent :: rest) result
    | some f =>
      match f result with
      | .waitTurn => (parent :: rest, Dialog.EndOfTurn)
      | .endDialog r => endDialogOn (parent :: rest) r

/-- Modelled from the spec: how the stack manager carries out the action a
dialog method body takes on the current stack — waiting keeps the stack
and surfaces the EndOfTurn sentinel, ending pops and forwards. -/
def applyAction {R : Type} (stack : List (Dialog R)) :
    DialogAction R → List (Dialog R) × DialogTurnResult R
  | .waitTurn => (stack, Dialog.EndOfTurn)
  | .endDialog r => endDialogOn stack r

/-- Modelled from the spec: the continue operation of the stack manager
(DialogContext.continue, not part of this snapshot).  When a new user turn
arrives it runs the active dialog through its dialogContinue body when one
is implemented, and otherwise auto-ends the dialog immediately, forwarding
no result (spec sections 4.1 and 8). -/
def continueDialog {R : Type} (stack : List (Dialog R)) :
    List (Dialog R) × DialogTurnResult R :=
  match stack with
  | [] => ([], { hasActive := false, hasResult := false })
  | top :: _ =>
    match top.dialogContinue with
    | none => endDialogOn stack none
    | some a => applyAction stack a

/-- Modelled from the spec: resuming the active dialog when a child it
started has ended with the given result (DialogContext, not part of this
snapshot).  A dialog implementing dialogResume has its body run with the
child result; a dialog lacking it is auto-ended with the result forwarded
one level further up (spec section 4.1). -/
def resumeDialog {R : Type} (stack : List (Dialog R)) (result : Option R) :
    List (Dialog R) × DialogTurnResult R :=
  match stack with
  | [] => ([], { hasActive := false, hasResult := false })
  | top :: _ =>
    match top.dialogResume with
    | none => endDialogOn stack result
    | some f => applyAction stack (f result)

/-- Modelled from the spec: the stack-wide cancel of the stack manager
(DialogContext.cancelAll, not part of this snapshot).  Every instance is
torn down in stack order and each instance implementing the dialogEnd hook
receives an end notification whose reason is cancelled (spec sections 3
and 8).  Returns the list of delivered notifications. -/
def cancelAll {R : Type} (stack : List (Dialog R)) : List (String × DialogEndReason) :=
  stack.filterMap fun d =>
    if d.hasDialogEnd then some (d.id, DialogEndReason.cancelled) else none

/-- The options handed to a prompt dialog (PromptOptions of the prompt
base class): the initial prompt payload and speak text, and the optional
retry prompt payload and speak text.  P is the payload type (a string or a
partial activity); none models an option that was not supplied. -/
structure PromptOptions (P : Type) where
  prompt : Option P := none
  speak : Option String := none
  retryPrompt : Option P := none
  retrySpeak : Option String := none

/-- Locale-keyed yes/no choice vocabularies (prompts.ConfirmChoices): an
object mapping locale codes, and the fallback key star, to choice
lists. -/
abbrev ConfirmChoices : Type := List (String × List String)

/-- Addresses of JS objects: the embedding tracks choice objects through
an explicit heap so that assignment by reference is distinguishable from
assignment by copy. -/
abbrev Addr : Type := Nat

/-- The heap of choice objects: what ConfirmChoices value each address
currently holds. -/
abbrev Heap : Type := Addr → ConfirmChoices

/-- Writing a choices object in place through a reference. -/
def Heap.write (h : Heap) (a : Addr) (v : ConfirmChoices) : Heap :=
  fun x => if x = a then v else h x

namespace ConfirmPrompt

/-- The value of the static ConfirmPrompt.choices object
(dialog.ts line 196): the fallback key mapped to yes and no. -/
def choices : ConfirmChoices := [("*", ["yes", "no"])]

/-- The fixed address of the single static ConfirmPrompt.choices object:
one shared object for the whole class. -/
def choicesAddr : Addr := (0 : Nat)

/-- The part of a ConfirmPrompt instance the claims observe: its dialog id
and the reference its underlying prompt holds in prompt.choices. -/
structure Inst where
  id : String
  promptChoicesRef : Addr

/-- The ConfirmPrompt constructor (dialog.ts lines 203 to 207): after
calling the base constructor with the dialog id it creates the underlying
prompt and assigns the static choices object to prompt.choices — a
reference assignment, not a copy. -/
def construct (dialogId : String) : Inst :=
  { id := dialogId, promptChoicesRef := choicesAddr }

/-- The choice vocabulary an instance observes: the heap read through the
reference its prompt holds. -/
def Inst.readChoices (inst : Inst) (h : Heap) : ConfirmChoices :=
  h inst.promptChoicesRef

/-- The heap at module load: the static object holds the initial choices
value. -/
def initialHeap : Heap := fun _ => choices

/-- ConfirmPrompt.onPrompt (dialog.ts lines 228 to 234): on a retry turn
with a supplied retry prompt it sends the retry prompt with the retry
speak text; otherwise, when an initial prompt was supplied, it sends that
with the speak text; otherwise it sends nothing.  The returned value is
the payload and speak text sent to the user, or none when nothing is
sent. -/
def onPrompt {P : Type} (options : PromptOptions P) (isRetry : Bool) :
    Option (P × Option String) :=
  if isRetry && options.retryPrompt.isSome then
    options.retryPrompt.map fun rp => (rp, options.retrySpeak)
  else
    options.prompt.map fun p => (p, options.speak)

end ConfirmPrompt

end BotbuilderDialogs

namespace AdaptiveExpressions

/-- A JavaScript value as far as the Exists evaluator can distinguish
them: undefined, null, or a defined non-null value. -/
inductive JSVal where
  | undefined
  | null
  | boolean (b : Bool)
  | number (n : Int)
  | str (s : String)
deriving DecidableEq, Repr

/-- Exists.func (src/unnamed/part_000 lines 61 to 63): true when args[0]
is neither undefined nor null.  Indexing a JS array past its end yields
undefined, so the head of an empty argument list is undefined. -/
def Exists.func (args : List JSVal) : Bool :=
  (args.headD JSVal.undefined != JSVal.undefined) &&
    (args.headD JSVal.undefined != JSVal.null)

end AdaptiveExpressions

namespace TeamsConversationUpdate

/-- A channel account as the handlers use it: only the id is read. -/
structure ChannelAccount where
  id : String

/-- Team information as the handlers use it: only the name is read. -/
structure TeamInfo where
  name : String

/-- A hero card: title and text, as built by CardFactory.heroCard. -/
structure HeroCard where
  title : String
  text : String
deriving DecidableEq, Repr

/-- The accumulated id string both handlers build by appending each
account id and a space. -/
def memberIds (accounts : List ChannelAccount) : String :=
  accounts.foldl (fun acc account => acc ++ account.id ++ " ") ""

/-- The onTeamsMembersRemovedEvent handler of ConversationUpdateBot
(dialog.ts lines 300 to 311): it builds the removed-member id string,
computes a fallback name, then builds the card text by reading
teamInfo.name directly.  Reading a property of undefined or null throws a
TypeError, modelled as Except.error; on success the card handed to
sendActivity is returned. -/
def onMembersRemoved (membersRemoved : List ChannelAccount)
    (teamInfo : Option TeamInfo) : Except String HeroCard :=
  let removedMembers := memberIds membersRemoved
  let name := match teamInfo with
    | none => "not in team"
    | some info => info.name
  match teamInfo with
  | none => Except.error "TypeError: cannot read name of undefined"
  | some info =>
    Except.ok { title := "Account Removed",
                text := removedMembers ++ " removed from " ++ info.name ++ "." }

/-- The onTeamsMembersAddedEvent handler of ConversationUpdateBot
(dialog.ts lines 288 to 299): it builds the added-member id string,
computes the fallback name, and interpolates that computed name into the
card text, so a missing team renders the fallback instead of
throwing. -/
def onMembersAdded (membersAdded : List ChannelAccount)
    (teamInfo : Option TeamInfo) : Except String HeroCard :=
  let newMembers := memberIds membersAdded
  let name := match teamInfo with
    | none => "not in team"
    | some info => info.name
  Except.ok { title := "Account Added",
              text := newMembers ++ " joined " ++ name ++ "." }

end TeamsConversationUpdate

namespace BotbuilderDialogs

/-- C1: the static sentinel Dialog.EndOfTurn is exactly the
DialogTurnResult with hasActive true and hasResult false, and its result
field is none, i.e. never set to any defined value, at every result
type. -/
theorem endOfTurn_is_active_no_result (T : Type) :
    (Dialog.EndOfTurn : DialogTurnResult T) =
      { hasActive := true, hasResult := false, result := none } ∧
    (Dialog.EndOfTurn : DialogTurnResult T).result = none :=
  ⟨rfl, rfl⟩

/-- C2: the hasActive flag, the hasResult flag and the optional result
field of DialogTurnResult are independent: every combination of the two
flags with a defined or an undefined result is representable, so hasResult
true neither forces hasActive false nor forces the result to be
defined. -/
theorem dialogTurnResult_fields_independent (T : Type) (a r : Bool) (v : Option T) :
    ∃ d : DialogTurnResult T, d.hasActive = a ∧ d.hasResult = r ∧ d.result = v :=
  ⟨⟨a, r, v⟩, rfl, rfl, rfl⟩

/-- Ending the top dialog never looks inside the popped dialog itself:
the outcome depends only on the rest of the stack and the result. -/
theorem endDialogOn_head_irrel {R : Type} (d e : Dialog R) (rest : List (Dialog R))
    (result : Option R) :
    endDialogOn (d :: rest) result = endDialogOn (e :: rest) result := by
  cases rest <;> rfl

/-- C3: auto-end equivalence — a dialog that does not implement
dialogContinue, when it is the active dialog and a new user turn arrives,
behaves exactly like the same dialog whose dialogContinue body immediately
ends the dialog forwarding no result: the remaining stack and the surfaced
DialogTurnResult coincide. -/
theorem continue_absent_auto_end {R : Type} (d : Dialog R) (rest : List (Dialog R))
    (h : d.dialogContinue = none) :
    continueDialog (d :: rest) =
      continueDialog
        ({ d with dialogContinue := some (DialogAction.endDialog none) } :: rest) := by
  have h1 : continueDialog (d :: rest) = endDialogOn (d :: rest) none := by
    simp [continueDialog, h]
  have h2 : continueDialog
        ({ d with dialogContinue := some (DialogAction.endDialog none) } :: rest) =
      endDialogOn ({ d with dialogContinue := some (DialogAction.endDialog none) } :: rest)
        none := by
    simp [continueDialog, applyAction]
  rw [h1, h2, endDialogOn_head_irrel]

/-- Witness for C3 at a concrete two-dialog stack. -/
theorem continue_absent_auto_end_witness :
    continueDialog
        ((⟨"child", DialogAction.waitTurn, none, none, true⟩ : Dialog Nat) ::
          [⟨"parent", DialogAction.waitTurn, none, some (fun _ => DialogAction.waitTurn), true⟩]) =
      continueDialog
        (({ (⟨"child", DialogAction.waitTurn, none, none, true⟩ : Dialog Nat) with
              dialogContinue := some (DialogAction.endDialog none) }) ::
          [⟨"parent", DialogAction.waitTurn, none, some (fun _ => DialogAction.waitTurn), true⟩]) :=
  continue_absent_auto_end _ _ rfl

/-- C4: result pass-through equivalence — a dialog that does not implement
dialogResume, when resumed with any child result v, behaves exactly like
the same dialog whose dialogResume body immediately ends the dialog and
forwards v unchanged one level up the stack. -/
theorem resume_absent_pass_through {R : Type} (d : Dialog R) (rest : List (Dialog R))
    (v : Option R) (h : d.dialogResume = none) :
    resumeDialog (d :: rest) v =
      resumeDialog
        ({ d with dialogResume := some (fun r => DialogAction.endDialog r) } :: rest) v := by
  have h1 : resumeDialog (d :: rest) v = endDialogOn (d :: rest) v := by
    simp [resumeDialog, h]
  have h2 : resumeDialog
        ({ d with dialogResume := some (fun r => DialogAction.endDialog r) } :: rest) v =
      endDialogOn ({ d with dialogResume := some (fun r => DialogAction.endDialog r) } :: rest)
        v := by
    simp [resumeDialog, applyAction]
  rw [h1, h2, endDialogOn_head_irrel]

/-- Witness for C4 at a concrete two-dialog stack and a defined child
result. -/
theorem resume_absent_pass_through_witness :
    resumeDialog
        ((⟨"child", DialogAction.waitTurn, none, none, true⟩ : Dialog Nat) ::
          [⟨"parent", DialogAction.waitTurn, none, some (fun _ => DialogAction.waitTurn), true⟩])
        (some 7) =
      resumeDialog
        (({ (⟨"child", DialogAction.waitTurn, none, none, true⟩ : Dialog Nat) with
              dialogResume := some (fun r => DialogAction.endDialog r) }) ::
          [⟨"parent", DialogAction.waitTurn, none, some (fun _ => DialogAction.waitTurn), true⟩])
        (some 7) :=
  resume_absent_pass_through _ _ (some 7) rfl

/-- C5: completed and cancelled are distinct tags with stable numeric
values 0 and 1, and a stack-wide cancel delivers the reason cancelled,
never completed, to every instance being torn down. -/
theorem cancelAll_delivers_cancelled (R : Type) (stack : List (Dialog R))
    (p : String × DialogEndReason) (hp : p ∈ cancelAll stack) :
    DialogEndReason.completed ≠ DialogEndReason.cancelled ∧
    DialogEndReason.completed.toNat = 0 ∧
    DialogEndReason.cancelled.toNat = 1 ∧
    p.2 = DialogEndReason.cancelled ∧
    p.2 ≠ DialogEndReason.completed := by
  refine ⟨by decide, rfl, rfl, ?_, ?_⟩ <;>
  · obtain ⟨d, _, hd⟩ := List.mem_filterMap.mp hp
    by_cases hend : d.hasDialogEnd <;> simp [hend] at hd
    cases hd.symm
    simp

/-- Witness for C5 on a concrete one-dialog stack. -/
theorem cancelAll_delivers_cancelled_witness :
    ("only", DialogEndReason.cancelled).2 = DialogEndReason.cancelled :=
  (cancelAll_delivers_cancelled Nat
      [⟨"only", DialogAction.waitTurn, none, none, true⟩]
      ("only", DialogEndReason.cancelled)
      (by simp [cancelAll])).2.2.2.1

/-- Every dialog left on the stack by the end operation was already on the
stack before it: ending pops dialogs and never constructs or rewrites
one. -/
theorem endDialogOn_fst_mem {R : Type} (stack : List (Dialog R)) (v : Option R)
    (d : Dialog R) (h : d ∈ (endDialogOn stack v).1) : d ∈ stack := by
  induction stack generalizing v with
  | nil => simp [endDialogOn] at h
  | cons x rest ih =>
    cases rest with
    | nil => simp [endDialogOn] at h
    | cons parent rest2 =>
      simp only [endDialogOn] at h
      cases hr : parent.dialogResume with
      | none =>
        rw [hr] at h
        exact List.mem_cons_of_mem _ (ih v h)
      | some f =>
        cases hf : f v with
        | waitTurn =>
          simp only [hr, hf] at h
          exact List.mem_cons_of_mem _ h
        | endDialog r =>
          simp only [hr, hf] at h
          exact List.mem_cons_of_mem _ (ih r h)

/-- C6: the id supplied at construction is immutable — the constructor
stores the id argument unchanged, and no turn operation of the stack
manager ever rewrites a dialog value: every dialog on the stack after a
continue, a resume or an end was already on the stack before it, as the
very same value, so the id observed at any point of the lifetime equals
the constructor argument. -/
theorem dialog_id_immutable {R : Type} (i : String) (b : DialogAction R)
    (c : Option (DialogAction R)) (rs : Option (Option R → DialogAction R)) (he : Bool)
    (stack : List (Dialog R)) (v : Option R) (d : Dialog R) :
    (Dialog.mk i b c rs he).id = i ∧
    (d ∈ (continueDialog stack).1 → d ∈ stack) ∧
    (d ∈ (resumeDialog stack v).1 → d ∈ stack) ∧
    (d ∈ (endDialogOn stack v).1 → d ∈ stack) := by
  refine ⟨rfl, ?_, ?_, endDialogOn_fst_mem stack v d⟩
  · intro h
    cases stack with
    | nil => simp [continueDialog] at h
    | cons top rest =>
      simp only [continueDialog] at h
      cases hc : top.dialogContinue with
      | none =>
        rw [hc] at h
        exact endDialogOn_fst_mem _ _ _ h
      | some a =>
        rw [hc] at h
        cases a with
        | waitTurn => simpa [applyAction] using h
        | endDialog r => exact endDialogOn_fst_mem _ _ _ (by simpa [applyAction] using h)
  · intro h
    cases stack with
    | nil => simp [resumeDialog] at h
    | cons top rest =>
      simp only [resumeDialog] at h
      cases hr : top.dialogResume with
      | none =>
        rw [hr] at h
        exact endDialogOn_fst_mem _ _ _ h
      | some f =>
        cases hf : f v with
        | waitTurn =>
          simp only [hr, hf] at h
          simpa [applyAction] using h
        | endDialog r =>
          simp only [hr, hf] at h
          exact endDialogOn_fst_mem _ _ _ (by simpa [applyAction] using h)

/-- Witness for C6: a concrete dialog keeps its constructed id, and the
dialog surviving a concrete continue turn is the dialog that was already
on the stack. -/
theorem dialog_id_immutable_witness :
    (Dialog.mk "confirm" DialogAction.waitTurn (some DialogAction.waitTurn) none true :
        Dialog Nat).id = "confirm" ∧
    (Dialog.mk "confirm" DialogAction.waitTurn (some DialogAction.waitTurn) none true :
        Dialog Nat) ∈
      [Dialog.mk "confirm" DialogAction.waitTurn (some DialogAction.waitTurn) none true] := by
  have h := dialog_id_immutable "confirm" DialogAction.waitTurn
    (some DialogAction.waitTurn) (none : Option (Option Nat → DialogAction Nat)) true
    [Dialog.mk "confirm" DialogAction.waitTurn (some DialogAction.waitTurn) none true]
    none
    (Dialog.mk "confirm" DialogAction.waitTurn (some DialogAction.waitTurn) none true)
  exact ⟨h.1, h.2.1 (by simp [continueDialog, applyAction])⟩

end BotbuilderDialogs

namespace BotbuilderDialogs

/-- C7 counterexample: on a retry turn where neither a retry prompt nor an
original prompt was supplied, onPrompt renders nothing at all, whereas the
claim states the original prompt is rendered in every case other than a
retry turn with a retry prompt. -/
theorem onPrompt_nothing_rendered_counterexample :
    @ConfirmPrompt.onPrompt String ⟨none, none, none, none⟩ true = none := rfl

/-- C7 (amended): if it is a retry turn and a retry prompt was supplied,
the retry prompt is rendered with the retry speak text; otherwise, when an
original prompt was supplied — including a retry turn with no retry
prompt — the original prompt is rendered with the speak text; and when no
applicable prompt was supplied, nothing is rendered. -/
theorem onPrompt_retry_then_original (P : Type) (options : PromptOptions P)
    (isRetry : Bool) :
    (∀ rp, isRetry = true → options.retryPrompt = some rp →
        ConfirmPrompt.onPrompt options isRetry = some (rp, options.retrySpeak)) ∧
    (∀ p, (isRetry = false ∨ options.retryPrompt = none) → options.prompt = some p →
        ConfirmPrompt.onPrompt options isRetry = some (p, options.speak)) ∧
    ((isRetry = false ∨ options.retryPrompt = none) → options.prompt = none →
        ConfirmPrompt.onPrompt options isRetry = none) := by
  refine ⟨?_, ?_, ?_⟩
  · intro rp hr hrp
    simp [ConfirmPrompt.onPrompt, hr, hrp]
  · intro p hcase hp
    rcases hcase with hr | hrp
    · simp [ConfirmPrompt.onPrompt, hr, hp]
    · simp [ConfirmPrompt.onPrompt, hrp, hp]
  · intro hcase hp
    rcases hcase with hr | hrp
    · simp [ConfirmPrompt.onPrompt, hr, hp]
    · simp [ConfirmPrompt.onPrompt, hrp, hp]

/-- Witness for C7 (amended) on a concrete retry turn with a supplied
retry prompt. -/
theorem onPrompt_retry_then_original_witness :
    @ConfirmPrompt.onPrompt String ⟨some "sure?", none, some "yes or no", none⟩ true =
      some ("yes or no", none) :=
  (onPrompt_retry_then_original String ⟨some "sure?", none, some "yes or no", none⟩
      true).1 "yes or no" rfl rfl

/-- C9: the ConfirmPrompt constructor assigns the static choices object to
the underlying prompt by reference, not by copy: every constructed
instance holds the address of the one static object, its vocabulary under
the initial heap is the static value, and a write through the static
reference is observed by every instance, past and future. -/
theorem confirmPrompt_choices_aliased (dialogId : String) (h : Heap)
    (v : ConfirmChoices) :
    (ConfirmPrompt.construct dialogId).promptChoicesRef = ConfirmPrompt.choicesAddr ∧
    (ConfirmPrompt.construct dialogId).readChoices ConfirmPrompt.initialHeap =
      ConfirmPrompt.choices ∧
    (ConfirmPrompt.construct dialogId).readChoices
        (h.write ConfirmPrompt.choicesAddr v) = v := by
  refine ⟨rfl, rfl, ?_⟩
  simp [ConfirmPrompt.construct, ConfirmPrompt.Inst.readChoices, Heap.write]

end BotbuilderDialogs

namespace AdaptiveExpressions

/-- C8: Exists.func is a pure null/undefined predicate on its first
argument: it returns true exactly when the first argument (undefined for
an empty argument list) is neither undefined nor null, and its value never
depends on any later argument. -/
theorem exists_func_null_undefined_predicate (args tail : List JSVal) (a : JSVal) :
    (Exists.func args = true ↔
      (args.headD JSVal.undefined ≠ JSVal.undefined ∧
        args.headD JSVal.undefined ≠ JSVal.null)) ∧
    Exists.func (a :: args) = Exists.func (a :: tail) := by
  constructor
  · simp [Exists.func]
  · rfl

end AdaptiveExpressions

namespace TeamsConversationUpdate

/-- C10: the fallback team name computed in the members-removed handler is
never used — when teamInfo is missing the handler throws on the direct
teamInfo.name read before sending the card, and when teamInfo is present
the card text interpolates its name directly; the members-added handler,
by contrast, renders the computed fallback when the team is missing. -/
theorem membersRemoved_fallback_unused (members : List ChannelAccount)
    (info : TeamInfo) :
    onMembersRemoved members none =
      Except.error "TypeError: cannot read name of undefined" ∧
    onMembersRemoved members (some info) =
      Except.ok { title := "Account Removed",
                  text := memberIds members ++ " removed from " ++ info.name ++ "." } ∧
    onMembersAdded members none =
      Except.ok { title := "Account Added",
                  text := memberIds members ++ " joined " ++ "not in team" ++ "." } :=
  ⟨rfl, rfl, rfl⟩

end TeamsConversationUpdate
